import Mathlib

/-!
Shallow embedding of the collection-api admin mutation layer
(src/admin/server.ts, database mutations part) over an explicit store.

The Prisma-backed relational store is modelled as lists of records; each
mutation is a pure function threading the store and returning the store
together with an `Except` result.  A JavaScript exception is either a
deliberately thrown `Error` with a message (`JsError.thrown`) or a runtime
`TypeError` raised by dereferencing a property of `null` / `undefined`
(`JsError.typeError`).
-/

namespace CollectionApi

/-- Collection publication status (Prisma enum CollectionStatus). -/
inductive CollectionStatus
  | draft
  | published
  | archived
deriving DecidableEq

/-- Polymorphic image owner type (Prisma enum ImageEntityType). -/
inductive ImageEntityType
  | collection
  | collection_author
deriving DecidableEq

/-- A JavaScript exception: either `throw new Error(msg)` from the
application code, or a runtime `TypeError` caused by reading a property
of a `null` lookup result. -/
inductive JsError
  | thrown (msg : String)
  | typeError (msg : String)
deriving DecidableEq

/-- CollectionAuthor row. -/
structure CollectionAuthor where
  id : Nat
  externalId : String
  name : String
  slug : String
  bio : Option String
  imageUrl : Option String
deriving DecidableEq

/-- Collection row; `authors` holds the externalIds of the connected
CollectionAuthor rows (the many-to-many join). -/
structure Collection where
  id : Nat
  externalId : String
  slug : String
  title : String
  excerpt : Option String
  imageUrl : Option String
  status : CollectionStatus
  publishedAt : Option Nat
  authors : List String
deriving DecidableEq

/-- CollectionStory row. -/
structure CollectionStory where
  id : Nat
  externalId : String
  collectionId : Nat
  url : String
  title : String
  excerpt : String
  imageUrl : String
  publisher : String
  sortOrder : Nat
deriving DecidableEq

/-- CollectionStoryAuthor join row, owned by a CollectionStory. -/
structure CollectionStoryAuthor where
  id : Nat
  collectionStoryId : Nat
  name : String
  sortOrder : Nat
deriving DecidableEq

/-- Image row with optional polymorphic owner. -/
structure Image where
  id : Nat
  path : String
  entityId : Option Nat
  entityType : Option ImageEntityType
deriving DecidableEq

/-- The relational store.  `nextId` feeds autoincrement ids and the
generated external ids of created rows. -/
structure DB where
  collectionAuthors : List CollectionAuthor
  collections : List Collection
  collectionStories : List CollectionStory
  collectionStoryAuthors : List CollectionStoryAuthor
  images : List Image
  nextId : Nat
deriving DecidableEq

/-- Input of createAuthor (CreateCollectionAuthorInput); `none` models an
absent optional GraphQL field. -/
structure CreateCollectionAuthorInput where
  name : String
  slug : Option String
  bio : Option String
  imageUrl : Option String

/-- Input of updateAuthor (UpdateCollectionAuthorInput); `externalId` is
`none` when absent, `some ""` when supplied empty — both falsy in JS. -/
structure UpdateCollectionAuthorInput where
  externalId : Option String
  name : String
  slug : String
  bio : Option String
  imageUrl : Option String

/-- Modelled from the spec: `CreateCollectionInput` is declared in
src/database/types (not included in the sources).  Per the spec and the
integration tests it carries the collection fields plus
`authorExternalId`, and carries neither a status nor a publishedAt field
(the store defaults status to draft and publishedAt to empty). -/
structure CreateCollectionInput where
  slug : String
  title : String
  excerpt : Option String
  imageUrl : Option String
  authorExternalId : String

/-- Modelled from the spec: `UpdateCollectionInput` is declared in
src/database/types (not included).  It adds `externalId` and an optional
`status`; `publishedAt` is not caller-suppliable — the mutation itself
assigns it on the publish transition. -/
structure UpdateCollectionInput where
  externalId : String
  slug : String
  title : String
  excerpt : Option String
  imageUrl : Option String
  status : Option CollectionStatus
  authorExternalId : String

/-- A story author as given in story create/update inputs. -/
structure StoryAuthorInput where
  name : String
  sortOrder : Nat

/-- Modelled from the spec: `CreateCollectionStoryInput` is declared in
src/database/types (not included); story fields plus the parent
collection's external id and the list of story authors. -/
structure CreateCollectionStoryInput where
  collectionExternalId : String
  url : String
  title : String
  excerpt : String
  imageUrl : String
  publisher : String
  sortOrder : Nat
  authors : List StoryAuthorInput

/-- Modelled from the spec: `UpdateCollectionStoryInput` is declared in
src/database/types (not included); story fields plus the story's own
external id and the replacement list of story authors. -/
structure UpdateCollectionStoryInput where
  externalId : String
  url : String
  title : String
  excerpt : String
  imageUrl : String
  publisher : String
  sortOrder : Nat
  authors : List StoryAuthorInput

/-- Prisma update semantics for an optional column: an `undefined` field
(`none`) is skipped, a present field overwrites. -/
def optUpdate {α : Type} (old new : Option α) : Option α :=
  match new with
  | some v => some v
  | none => old

/-- Modelled from the spec: `slugify` (third-party library with the
repository's config, neither under src/) produces a normalized, URL-safe
identifier from a name — lowercase, spaces become hyphens, other
non-alphanumeric characters dropped (the tests expect
slugify "the dude" = "the-dude"). -/
def slugify (s : String) : String :=
  String.mk (s.toList.filterMap (fun c =>
    if c = ' ' then some '-'
    else if c.isAlphanum then some c.toLower
    else none))

/-- Modelled from the spec: `getCollection` (src/database/queries, not
included) looks a collection up by external id and yields `null` when no
record matches — attested by the caller's `if (!existingCollection)`
check in updateCollection. -/
def getCollection (db : DB) (externalId : String) : Option Collection :=
  db.collections.find? (fun c => c.externalId == externalId)

/-- Modelled from the spec: `getCollectionStory` (src/database/queries,
not included) looks a collection story up by external id and yields
`null` when no record matches — attested by the query integration test
expecting a falsy result for an unknown external id. -/
def getCollectionStory (db : DB) (externalId : String) : Option CollectionStory :=
  db.collectionStories.find? (fun s => s.externalId == externalId)

/-- The slug written by `data.slug = data.slug || slugify(data.name, config.slugify)`:
the given slug when truthy, otherwise the slugified name (an absent and
an empty slug are both falsy in JS). -/
def resolvedAuthorSlug (data : CreateCollectionAuthorInput) : String :=
  match data.slug with
  | some s => if s = "" then slugify data.name else s
  | none => slugify data.name

/-- createAuthor: default the slug from the name when absent or empty
(JS `data.slug || slugify(data.name, config.slugify)`), reject a slug
already in use, then insert the row. -/
def createAuthor (db : DB) (data : CreateCollectionAuthorInput) :
    DB × Except JsError CollectionAuthor :=
  let slug : String := resolvedAuthorSlug data
  let slugExists := db.collectionAuthors.countP (fun a => a.slug == slug)
  if slugExists ≠ 0 then
    (db, Except.error (JsError.thrown
      ("An author with the slug \"" ++ slug ++ "\" already exists")))
  else
    let author : CollectionAuthor :=
      { id := db.nextId
        externalId := "author-" ++ toString db.nextId
        name := data.name
        slug := slug
        bio := data.bio
        imageUrl := data.imageUrl }
    ({ db with
        collectionAuthors := db.collectionAuthors ++ [author]
        nextId := db.nextId + 1 },
      Except.ok author)

/-- updateAuthor: require a truthy externalId, reject a slug used by an
author with a different externalId, then update the row in place
(a Prisma update on a missing row raises its record-not-found error). -/
def updateAuthor (db : DB) (data : UpdateCollectionAuthorInput) :
    DB × Except JsError CollectionAuthor :=
  match data.externalId with
  | none => (db, Except.error (JsError.thrown "externalId must be provided."))
  | some eid =>
    if eid = "" then
      (db, Except.error (JsError.thrown "externalId must be provided."))
    else
      let slugExists := db.collectionAuthors.countP
        (fun a => a.slug == data.slug && a.externalId != eid)
      if slugExists ≠ 0 then
        (db, Except.error (JsError.thrown
          ("An author with the slug \"" ++ data.slug ++ "\" already exists")))
      else
        match db.collectionAuthors.find? (fun a => a.externalId == eid) with
        | none => (db, Except.error (JsError.thrown "Record to update not found."))
        | some a0 =>
          let updated : CollectionAuthor :=
            { a0 with
                name := data.name
                slug := data.slug
                bio := optUpdate a0.bio data.bio
                imageUrl := optUpdate a0.imageUrl data.imageUrl }
          ({ db with
              collectionAuthors := db.collectionAuthors.map
                (fun a => if a.externalId == eid then updated else a) },
            Except.ok updated)

/-- createCollection: reject a slug already in use, then insert the row
with the store defaults (status draft, publishedAt empty) and connect the
author given by `authorExternalId`; a Prisma nested `connect` on a
missing author raises, atomically, before anything is written. -/
def createCollection (db : DB) (data : CreateCollectionInput) :
    DB × Except JsError Collection :=
  let slugExists := db.collections.countP (fun c => c.slug == data.slug)
  if slugExists ≠ 0 then
    (db, Except.error (JsError.thrown
      ("A collection with the slug " ++ data.slug ++ " already exists")))
  else
    if (db.collectionAuthors.find?
        (fun a => a.externalId == data.authorExternalId)).isNone then
      (db, Except.error (JsError.thrown "Author to connect not found."))
    else
      let c : Collection :=
        { id := db.nextId
          externalId := "collection-" ++ toString db.nextId
          slug := data.slug
          title := data.title
          excerpt := data.excerpt
          imageUrl := data.imageUrl
          status := CollectionStatus.draft
          publishedAt := none
          authors := [data.authorExternalId] }
      ({ db with
          collections := db.collections ++ [c]
          nextId := db.nextId + 1 },
        Except.ok c)

/-- updateCollection: look the record up by external id and throw when
missing; when the slug is changing, reject a slug used by any other
collection; on the transition from unpublished to published assign
publishedAt the current time (`now`); then update the row, re-syncing
the author join with set-empty-then-connect. -/
def updateCollection (db : DB) (data : UpdateCollectionInput) (now : Nat) :
    DB × Except JsError Collection :=
  match getCollection db data.externalId with
  | none =>
    (db, Except.error (JsError.thrown "A collection by that ID could not be found"))
  | some existingCollection =>
    let sameSlugs := db.collections.countP
      (fun c => c.slug == data.slug && c.externalId != existingCollection.externalId)
    if existingCollection.slug ≠ data.slug ∧ sameSlugs > 0 then
      (db, Except.error (JsError.thrown
        ("A collection with the slug " ++ data.slug ++ " already exists")))
    else
      let publishedAt : Option Nat :=
        if existingCollection.status ≠ CollectionStatus.published ∧
            data.status = some CollectionStatus.published then
          some now
        else
          none
      if (db.collectionAuthors.find?
          (fun a => a.externalId == data.authorExternalId)).isNone then
        (db, Except.error (JsError.thrown "Author to connect not found."))
      else
        let updated : Collection :=
          { existingCollection with
              slug := data.slug
              title := data.title
              excerpt := optUpdate existingCollection.excerpt data.excerpt
              imageUrl := optUpdate existingCollection.imageUrl data.imageUrl
              status := data.status.getD existingCollection.status
              publishedAt := optUpdate existingCollection.publishedAt publishedAt
              authors := [data.authorExternalId] }
        ({ db with
            collections := db.collections.map
              (fun c => if c.externalId == data.externalId then updated else c) },
          Except.ok updated)

/-- createCollectionStory: fetch the parent collection by external id and
read its internal id — with no null check, so a missing collection makes
the `collection.id` read raise a TypeError — then insert the story row
together with its author join rows. -/
def createCollectionStory (db : DB) (data : CreateCollectionStoryInput) :
    DB × Except JsError CollectionStory :=
  match getCollection db data.collectionExternalId with
  | none =>
    (db, Except.error (JsError.typeError "Cannot read properties of null (reading id)"))
  | some collection =>
    let story : CollectionStory :=
      { id := db.nextId
        externalId := "story-" ++ toString db.nextId
        collectionId := collection.id
        url := data.url
        title := data.title
        excerpt := data.excerpt
        imageUrl := data.imageUrl
        publisher := data.publisher
        sortOrder := data.sortOrder }
    let newAuthors : List CollectionStoryAuthor :=
      data.authors.enum.map (fun p =>
        { id := db.nextId + 1 + p.1
          collectionStoryId := story.id
          name := p.2.name
          sortOrder := p.2.sortOrder })
    ({ db with
        collectionStories := db.collectionStories ++ [story]
        collectionStoryAuthors := db.collectionStoryAuthors ++ newAuthors
        nextId := db.nextId + 1 + data.authors.length },
      Except.ok story)

/-- updateCollectionStory: fetch the existing story for its internal id —
with no null check, so a missing story makes the `existingStory.id` read
raise a TypeError — delete its author join rows, then update the row and
recreate the authors from the input. -/
def updateCollectionStory (db : DB) (data : UpdateCollectionStoryInput) :
    DB × Except JsError CollectionStory :=
  match getCollectionStory db data.externalId with
  | none =>
    (db, Except.error (JsError.typeError "Cannot read properties of null (reading id)"))
  | some existingStory =>
    let db1 : DB :=
      { db with
          collectionStoryAuthors := db.collectionStoryAuthors.filter
            (fun a => a.collectionStoryId != existingStory.id) }
    let updated : CollectionStory :=
      { existingStory with
          url := data.url
          title := data.title
          excerpt := data.excerpt
          imageUrl := data.imageUrl
          publisher := data.publisher
          sortOrder := data.sortOrder }
    let newAuthors : List CollectionStoryAuthor :=
      data.authors.enum.map (fun p =>
        { id := db1.nextId + p.1
          collectionStoryId := existingStory.id
          name := p.2.name
          sortOrder := p.2.sortOrder })
    ({ db1 with
        collectionStories := db1.collectionStories.map
          (fun s => if s.externalId == data.externalId then updated else s)
        collectionStoryAuthors := db1.collectionStoryAuthors ++ newAuthors
        nextId := db1.nextId + data.authors.length },
      Except.ok updated)

/-- First half of deleteCollectionStory: delete every
collectionStoryAuthor join row owned by the story with internal id
`storyId`. -/
def deleteStoryAuthors (db : DB) (storyId : Nat) : DB :=
  { db with
      collectionStoryAuthors := db.collectionStoryAuthors.filter
        (fun a => a.collectionStoryId != storyId) }

/-- deleteCollectionStory: fetch the existing story for its internal id —
with no null check, so a missing story makes the `existingStory.id` read
raise a TypeError — delete its author join rows first, then delete the
story row, and return the pre-fetched story. -/
def deleteCollectionStory (db : DB) (externalId : String) :
    DB × Except JsError CollectionStory :=
  match getCollectionStory db externalId with
  | none =>
    (db, Except.error (JsError.typeError "Cannot read properties of null (reading id)"))
  | some existingStory =>
    let db1 := deleteStoryAuthors db existingStory.id
    ({ db1 with
        collectionStories := db1.collectionStories.filter
          (fun s => s.externalId != externalId) },
      Except.ok existingStory)

/-- createImage: insert the image row. -/
def createImage (db : DB) (path : String) (entityId : Option Nat)
    (entityType : Option ImageEntityType) : DB × Image :=
  let image : Image :=
    { id := db.nextId, path := path, entityId := entityId, entityType := entityType }
  ({ db with images := db.images ++ [image], nextId := db.nextId + 1 }, image)

/-- associateImageWithEntity: return nothing when the entity has no
imageUrl; otherwise find the unique image whose path equals the
entity's imageUrl, and when present update that image's owner fields and
return it — an absent image is silently ignored. -/
def associateImageWithEntity (db : DB) (entityId : Nat) (imageUrl : String)
    (entityType : ImageEntityType) : DB × Option Image :=
  if imageUrl = "" then (db, none)
  else
    match db.images.find? (fun i => i.path == imageUrl) with
    | none => (db, none)
    | some image =>
      let updated : Image :=
        { image with entityId := some entityId, entityType := some entityType }
      ({ db with
          images := db.images.map (fun i => if i.id == image.id then updated else i) },
        some updated)

/-- true exactly on the error results of a mutation. -/
def isErr {α : Type} : Except JsError α → Bool
  | Except.error _ => true
  | Except.ok _ => false

/-- true exactly on a deliberately thrown `Error` (not a TypeError). -/
def isThrownError {α : Type} : Except JsError α → Bool
  | Except.error (JsError.thrown _) => true
  | _ => false

/-- Decidable equality of mutation results, so that concrete runs can be
checked by `decide`. -/
instance instDecidableEqExcept {ε α : Type} [DecidableEq ε] [DecidableEq α] :
    DecidableEq (Except ε α) := fun x y =>
  match x, y with
  | Except.error e, Except.error f =>
    if h : e = f then Decidable.isTrue (by rw [h])
    else Decidable.isFalse (by intro hc; cases hc; exact h rfl)
  | Except.error _, Except.ok _ => Decidable.isFalse (by intro hc; cases hc)
  | Except.ok _, Except.error _ => Decidable.isFalse (by intro hc; cases hc)
  | Except.ok a, Except.ok b =>
    if h : a = b then Decidable.isTrue (by rw [h])
    else Decidable.isFalse (by intro hc; cases hc; exact h rfl)

/-! Concrete sample store used to exercise the mutations. -/

/-- The empty store. -/
def emptyDB : DB :=
  { collectionAuthors := []
    collections := []
    collectionStories := []
    collectionStoryAuthors := []
    images := []
    nextId := 1 }

/-- Sample author "the dude". -/
def sampleAuthor1 : CollectionAuthor :=
  { id := 1, externalId := "a1", name := "the dude", slug := "the-dude"
    bio := none, imageUrl := none }

/-- Sample author "walter". -/
def sampleAuthor2 : CollectionAuthor :=
  { id := 2, externalId := "a2", name := "walter", slug := "walter"
    bio := none, imageUrl := none }

/-- Sample draft collection. -/
def sampleCollection1 : Collection :=
  { id := 3, externalId := "c1", slug := "let-us-go-bowling", title := "first"
    excerpt := none, imageUrl := none, status := CollectionStatus.draft
    publishedAt := none, authors := ["a1"] }

/-- Sample published collection. -/
def sampleCollection2 : Collection :=
  { id := 4, externalId := "c2", slug := "phone-is-ringing", title := "second"
    excerpt := none, imageUrl := none, status := CollectionStatus.published
    publishedAt := some 11, authors := ["a1"] }

/-- Sample story belonging to the draft collection. -/
def sampleStory : CollectionStory :=
  { id := 5, externalId := "s1", collectionId := 3, url := "https://getpocket.com"
    title := "a story", excerpt := "how", imageUrl := "https://some.image"
    publisher := "the verge", sortOrder := 0 }

/-- Sample join row attaching an author to the sample story. -/
def sampleStoryAuthor : CollectionStoryAuthor :=
  { id := 6, collectionStoryId := 5, name := "donny", sortOrder := 0 }

/-- Sample unassociated image. -/
def sampleImage : Image :=
  { id := 7, path := "https://some.image", entityId := none, entityType := none }

/-- A populated sample store. -/
def sampleDB : DB :=
  { collectionAuthors := [sampleAuthor1, sampleAuthor2]
    collections := [sampleCollection1, sampleCollection2]
    collectionStories := [sampleStory]
    collectionStoryAuthors := [sampleStoryAuthor]
    images := [sampleImage]
    nextId := 8 }

/-- Claim C7: every collection created by createCollection has status
draft and an empty publishedAt, regardless of the input's other fields,
and the created record is stored. -/
theorem createCollection_draft_defaults (db : DB) (data : CreateCollectionInput)
    (c : Collection) (h : (createCollection db data).2 = Except.ok c) :
    c.status = CollectionStatus.draft ∧ c.publishedAt = none ∧
    c ∈ (createCollection db data).1.collections := by
  simp only [createCollection] at h ⊢
  split at h
  next hslug => simp at h
  next hslug =>
    split at h
    next hauthor => simp at h
    next hauthor =>
      simp only [Except.ok.injEq] at h
      subst h
      simp [hslug, hauthor]

/-- Witness for createCollection_draft_defaults at a concrete input. -/
theorem createCollection_draft_defaults_witness :
    ((createCollection sampleDB
        { slug := "new-slug", title := "t", excerpt := some "e"
          imageUrl := none, authorExternalId := "a1" }).2 =
      Except.ok
        { id := 8, externalId := "collection-8", slug := "new-slug", title := "t"
          excerpt := some "e", imageUrl := none, status := CollectionStatus.draft
          publishedAt := none, authors := ["a1"] }) ∧
    ({ id := 8, externalId := "collection-8", slug := "new-slug", title := "t"
       excerpt := some "e", imageUrl := none, status := CollectionStatus.draft
       publishedAt := none, authors := ["a1"] : Collection }.status =
        CollectionStatus.draft ∧
      ({ id := 8, externalId := "collection-8", slug := "new-slug", title := "t"
         excerpt := some "e", imageUrl := none, status := CollectionStatus.draft
         publishedAt := none, authors := ["a1"] : Collection }.publishedAt = none) ∧
      { id := 8, externalId := "collection-8", slug := "new-slug", title := "t"
        excerpt := some "e", imageUrl := none, status := CollectionStatus.draft
        publishedAt := none, authors := ["a1"] : Collection } ∈
        (createCollection sampleDB
          { slug := "new-slug", title := "t", excerpt := some "e"
            imageUrl := none, authorExternalId := "a1" }).1.collections) :=
  ⟨by decide,
    createCollection_draft_defaults sampleDB
      { slug := "new-slug", title := "t", excerpt := some "e"
        imageUrl := none, authorExternalId := "a1" }
      { id := 8, externalId := "collection-8", slug := "new-slug", title := "t"
        excerpt := some "e", imageUrl := none, status := CollectionStatus.draft
        publishedAt := none, authors := ["a1"] }
      (by decide)⟩

/-- Claim C8: updateAuthor with an absent or empty externalId throws
exactly the missing-identifier error and leaves the store untouched. -/
theorem updateAuthor_missing_externalId (db : DB) (data : UpdateCollectionAuthorInput)
    (h : data.externalId = none ∨ data.externalId = some "") :
    updateAuthor db data =
      (db, Except.error (JsError.thrown "externalId must be provided.")) := by
  rcases h with h | h <;> simp [updateAuthor, h]

/-- Witness for updateAuthor_missing_externalId at a concrete input. -/
theorem updateAuthor_missing_externalId_witness :
    updateAuthor sampleDB
        { externalId := none, name := "n", slug := "s", bio := none, imageUrl := none } =
      (sampleDB, Except.error (JsError.thrown "externalId must be provided.")) :=
  updateAuthor_missing_externalId sampleDB
    { externalId := none, name := "n", slug := "s", bio := none, imageUrl := none }
    (Or.inl rfl)

/-- Claim C5: createAuthor defaults the slug to the slugified name when
the input slug is absent or empty, and keeps a supplied non-empty slug. -/
theorem createAuthor_slug_default (db : DB) (data : CreateCollectionAuthorInput) :
    ((data.slug = none ∨ data.slug = some "") →
      ∀ a, (createAuthor db data).2 = Except.ok a → a.slug = slugify data.name) ∧
    (∀ s, data.slug = some s → s ≠ "" →
      ∀ a, (createAuthor db data).2 = Except.ok a → a.slug = s) := by
  constructor
  · intro hslug a h
    simp only [createAuthor] at h
    split at h
    · simp at h
    · simp only [Except.ok.injEq] at h
      subst h
      rcases hslug with hs | hs <;> simp [resolvedAuthorSlug, hs]
  · intro s hs hne a h
    simp only [createAuthor] at h
    split at h
    · simp at h
    · simp only [Except.ok.injEq] at h
      subst h
      simp [resolvedAuthorSlug, hs, hne]

/-- Witness for createAuthor_slug_default at concrete inputs: a missing
slug defaults to the slugified name, a supplied slug is kept. -/
theorem createAuthor_slug_default_witness :
    ((createAuthor sampleDB
        { name := "el duderino", slug := none, bio := none, imageUrl := none }).2 =
      Except.ok
        { id := 8, externalId := "author-8", name := "el duderino"
          slug := "el-duderino", bio := none, imageUrl := none }) ∧
    ({ id := 8, externalId := "author-8", name := "el duderino"
       slug := "el-duderino", bio := none, imageUrl := none : CollectionAuthor }.slug =
        slugify "el duderino") ∧
    ((createAuthor sampleDB
        { name := "el duderino", slug := some "his-dudeness", bio := none
          imageUrl := none }).2 =
      Except.ok
        { id := 8, externalId := "author-8", name := "el duderino"
          slug := "his-dudeness", bio := none, imageUrl := none }) ∧
    ({ id := 8, externalId := "author-8", name := "el duderino"
       slug := "his-dudeness", bio := none, imageUrl := none : CollectionAuthor }.slug =
        "his-dudeness") :=
  ⟨by decide,
    (createAuthor_slug_default sampleDB
      { name := "el duderino", slug := none, bio := none, imageUrl := none }).1
      (Or.inl rfl) _ (by decide),
    by decide,
    (createAuthor_slug_default sampleDB
      { name := "el duderino", slug := some "his-dudeness", bio := none
        imageUrl := none }).2
      "his-dudeness" rfl (by decide) _ (by decide)⟩

/-- A createAuthor input whose slug collides with the stored "the-dude". -/
def dupCreateAuthorInput : CreateCollectionAuthorInput :=
  { name := "another dude", slug := some "the-dude", bio := none, imageUrl := none }

/-- An updateAuthor input moving author a2 onto the slug of author a1. -/
def dupUpdateAuthorInput : UpdateCollectionAuthorInput :=
  { externalId := some "a2", name := "walter", slug := "the-dude"
    bio := none, imageUrl := none }

/-- A createCollection input whose slug collides with collection c1. -/
def dupCreateCollectionInput : CreateCollectionInput :=
  { slug := "let-us-go-bowling", title := "again", excerpt := none
    imageUrl := none, authorExternalId := "a1" }

/-- An updateCollection input naming an external id no collection has. -/
def missingUpdateCollectionInput : UpdateCollectionInput :=
  { externalId := "nope", slug := "s", title := "t", excerpt := none
    imageUrl := none, status := none, authorExternalId := "a1" }

/-- Claim C9: a createAuthor, updateAuthor, createCollection or
updateCollection run that returns an error leaves the store exactly as it
was — all validation happens before any write. -/
theorem error_leaves_store_unchanged (db : DB) (d1 : CreateCollectionAuthorInput)
    (d2 : UpdateCollectionAuthorInput) (d3 : CreateCollectionInput)
    (d4 : UpdateCollectionInput) (now : Nat) :
    (isErr (createAuthor db d1).2 = true → (createAuthor db d1).1 = db) ∧
    (isErr (updateAuthor db d2).2 = true → (updateAuthor db d2).1 = db) ∧
    (isErr (createCollection db d3).2 = true → (createCollection db d3).1 = db) ∧
    (isErr (updateCollection db d4 now).2 = true → (updateCollection db d4 now).1 = db) := by
  have h1 : (createAuthor db d1).1 = db ∨ isErr (createAuthor db d1).2 = false := by
    simp only [createAuthor]
    repeat first
      | exact Or.inl rfl
      | exact Or.inr rfl
      | split
  have h2 : (updateAuthor db d2).1 = db ∨ isErr (updateAuthor db d2).2 = false := by
    simp only [updateAuthor]
    repeat first
      | exact Or.inl rfl
      | exact Or.inr rfl
      | split
  have h3 : (createCollection db d3).1 = db ∨ isErr (createCollection db d3).2 = false := by
    simp only [createCollection]
    repeat first
      | exact Or.inl rfl
      | exact Or.inr rfl
      | split
  have h4 : (updateCollection db d4 now).1 = db ∨
      isErr (updateCollection db d4 now).2 = false := by
    simp only [updateCollection]
    repeat first
      | exact Or.inl rfl
      | exact Or.inr rfl
      | split
  refine ⟨fun h => ?_, fun h => ?_, fun h => ?_, fun h => ?_⟩
  · rcases h1 with h1 | h1
    · exact h1
    · rw [h] at h1; cases h1
  · rcases h2 with h2 | h2
    · exact h2
    · rw [h] at h2; cases h2
  · rcases h3 with h3 | h3
    · exact h3
    · rw [h] at h3; cases h3
  · rcases h4 with h4 | h4
    · exact h4
    · rw [h] at h4; cases h4

/-- Witness for error_leaves_store_unchanged: four concrete failing runs
against the sample store, each leaving it untouched. -/
theorem error_leaves_store_unchanged_witness :
    (createAuthor sampleDB dupCreateAuthorInput).1 = sampleDB ∧
    (updateAuthor sampleDB dupUpdateAuthorInput).1 = sampleDB ∧
    (createCollection sampleDB dupCreateCollectionInput).1 = sampleDB ∧
    (updateCollection sampleDB missingUpdateCollectionInput 42).1 = sampleDB :=
  ⟨(error_leaves_store_unchanged sampleDB dupCreateAuthorInput dupUpdateAuthorInput
      dupCreateCollectionInput missingUpdateCollectionInput 42).1 (by decide),
    (error_leaves_store_unchanged sampleDB dupCreateAuthorInput dupUpdateAuthorInput
      dupCreateCollectionInput missingUpdateCollectionInput 42).2.1 (by decide),
    (error_leaves_store_unchanged sampleDB dupCreateAuthorInput dupUpdateAuthorInput
      dupCreateCollectionInput missingUpdateCollectionInput 42).2.2.1 (by decide),
    (error_leaves_store_unchanged sampleDB dupCreateAuthorInput dupUpdateAuthorInput
      dupCreateCollectionInput missingUpdateCollectionInput 42).2.2.2 (by decide)⟩

/-- Claim C10: associateImageWithEntity never creates an image — an empty
imageUrl or an unmatched path leaves the store unchanged and returns
nothing; a matched image has exactly its owner fields updated, every
other image and every other table is untouched, and the image count is
always preserved. -/
theorem associateImageWithEntity_frame (db : DB) (entityId : Nat)
    (imageUrl : String) (entityType : ImageEntityType) :
    (imageUrl = "" →
      associateImageWithEntity db entityId imageUrl entityType = (db, none)) ∧
    (imageUrl ≠ "" → db.images.find? (fun i => i.path == imageUrl) = none →
      associateImageWithEntity db entityId imageUrl entityType = (db, none)) ∧
    (∀ img, imageUrl ≠ "" →
      db.images.find? (fun i => i.path == imageUrl) = some img →
      (associateImageWithEntity db entityId imageUrl entityType).2 =
        some { img with entityId := some entityId, entityType := some entityType } ∧
      (associateImageWithEntity db entityId imageUrl entityType).1.images =
        db.images.map (fun i =>
          if i.id == img.id then
            { img with entityId := some entityId, entityType := some entityType }
          else i) ∧
      (∀ i ∈ db.images, i.id ≠ img.id →
        i ∈ (associateImageWithEntity db entityId imageUrl entityType).1.images) ∧
      (associateImageWithEntity db entityId imageUrl entityType).1.collectionAuthors =
        db.collectionAuthors ∧
      (associateImageWithEntity db entityId imageUrl entityType).1.collections =
        db.collections ∧
      (associateImageWithEntity db entityId imageUrl entityType).1.collectionStories =
        db.collectionStories ∧
      (associateImageWithEntity db entityId imageUrl entityType).1.collectionStoryAuthors =
        db.collectionStoryAuthors) ∧
    ((associateImageWithEntity db entityId imageUrl entityType).1.images.length =
      db.images.length) := by
  refine ⟨fun h => ?_, fun h hf => ?_, fun img h hf => ?_, ?_⟩
  · simp [associateImageWithEntity, h]
  · simp [associateImageWithEntity, h, hf]
  · simp only [associateImageWithEntity, if_neg h, hf]
    refine ⟨?_, ?_, fun i hi hne => ?_, ?_, ?_, ?_, ?_⟩ <;>
      first
        | rfl
        | trivial
        | (refine List.mem_map.mpr ⟨i, hi, ?_⟩
           simp [hne])
  · simp only [associateImageWithEntity]
    split
    · rfl
    · split
      · rfl
      · simp

/-- Witness for associateImageWithEntity_frame: a concrete run against
the sample store associating the stored image with collection c1. -/
theorem associateImageWithEntity_frame_witness :
    (associateImageWithEntity sampleDB 3 "" ImageEntityType.collection =
      (sampleDB, none)) ∧
    (associateImageWithEntity sampleDB 3 "https://nowhere" ImageEntityType.collection =
      (sampleDB, none)) ∧
    ((associateImageWithEntity sampleDB 3 "https://some.image"
        ImageEntityType.collection).2 =
      some { id := 7, path := "https://some.image", entityId := some 3
             entityType := some ImageEntityType.collection }) ∧
    ((associateImageWithEntity sampleDB 3 "https://some.image"
        ImageEntityType.collection).1.images.length = sampleDB.images.length) :=
  ⟨(associateImageWithEntity_frame sampleDB 3 "" ImageEntityType.collection).1 rfl,
    (associateImageWithEntity_frame sampleDB 3 "https://nowhere"
      ImageEntityType.collection).2.1 (by decide) (by decide),
    ((associateImageWithEntity_frame sampleDB 3 "https://some.image"
      ImageEntityType.collection).2.2.1 sampleImage (by decide) (by decide)).1,
    (associateImageWithEntity_frame sampleDB 3 "https://some.image"
      ImageEntityType.collection).2.2.2⟩

/-- Claim C6: deleteCollectionStory factors through the intermediate
store `deleteStoryAuthors db story.id`: the join rows are gone in that
intermediate store while the story row is still present, and only the
final store drops the story row — so the parent row is never deleted
while dependent join rows still exist. -/
theorem deleteCollectionStory_authors_first (db : DB) (eid : String)
    (story : CollectionStory) (h : getCollectionStory db eid = some story) :
    deleteCollectionStory db eid =
      ({ deleteStoryAuthors db story.id with
          collectionStories := (deleteStoryAuthors db story.id).collectionStories.filter
            (fun s => s.externalId != eid) },
        Except.ok story) ∧
    (∀ a ∈ (deleteStoryAuthors db story.id).collectionStoryAuthors,
      a.collectionStoryId ≠ story.id) ∧
    story ∈ (deleteStoryAuthors db story.id).collectionStories ∧
    (∀ a ∈ (deleteCollectionStory db eid).1.collectionStoryAuthors,
      a.collectionStoryId ≠ story.id) ∧
    (∀ s ∈ (deleteCollectionStory db eid).1.collectionStories,
      s.externalId ≠ eid) := by
  have hdel : deleteCollectionStory db eid =
      ({ deleteStoryAuthors db story.id with
          collectionStories := (deleteStoryAuthors db story.id).collectionStories.filter
            (fun s => s.externalId != eid) },
        Except.ok story) := by
    simp [deleteCollectionStory, h]
  have hmid : ∀ a ∈ (deleteStoryAuthors db story.id).collectionStoryAuthors,
      a.collectionStoryId ≠ story.id := by
    intro a ha
    simp only [deleteStoryAuthors, List.mem_filter] at ha
    simpa using ha.2
  refine ⟨hdel, hmid, ?_, ?_, ?_⟩
  · simp only [deleteStoryAuthors]
    exact List.mem_of_find?_eq_some h
  · intro a ha
    rw [hdel] at ha
    exact hmid a ha
  · intro s hs
    rw [hdel] at hs
    simp only [List.mem_filter] at hs
    simpa using hs.2

/-- Witness for deleteCollectionStory_authors_first: deleting the sample
story from the sample store. -/
theorem deleteCollectionStory_authors_first_witness :
    deleteCollectionStory sampleDB "s1" =
      ({ deleteStoryAuthors sampleDB sampleStory.id with
          collectionStories :=
            (deleteStoryAuthors sampleDB sampleStory.id).collectionStories.filter
              (fun s => s.externalId != "s1") },
        Except.ok sampleStory) ∧
    sampleStory ∈ (deleteStoryAuthors sampleDB sampleStory.id).collectionStories :=
  ⟨(deleteCollectionStory_authors_first sampleDB "s1" sampleStory (by decide)).1,
    (deleteCollectionStory_authors_first sampleDB "s1" sampleStory (by decide)).2.2.1⟩

/-- Claim C3 (counterexample to the claim as stated): deleting a story
whose external id matches no record does not raise a deliberately thrown,
human-readable exception — the unchecked `existingStory.id` read raises a
TypeError. -/
theorem deleteCollectionStory_not_found_counterexample :
    getCollectionStory emptyDB "missing" = none ∧
    isErr (deleteCollectionStory emptyDB "missing").2 = true ∧
    isThrownError (deleteCollectionStory emptyDB "missing").2 = false := by
  decide

/-- Claim C3 (amended): a failed lookup makes updateCollection throw its
human-readable not-found Error, while createCollectionStory,
updateCollectionStory and deleteCollectionStory dereference the missing
record and fail with a TypeError, the store left unchanged in all four
cases. -/
theorem lookup_not_found_behavior (db : DB) (d4 : UpdateCollectionInput)
    (now : Nat) (ds : CreateCollectionStoryInput)
    (du : UpdateCollectionStoryInput) (eid : String) :
    (getCollection db d4.externalId = none →
      updateCollection db d4 now =
        (db, Except.error (JsError.thrown "A collection by that ID could not be found"))) ∧
    (getCollection db ds.collectionExternalId = none →
      createCollectionStory db ds =
        (db, Except.error
          (JsError.typeError "Cannot read properties of null (reading id)"))) ∧
    (getCollectionStory db du.externalId = none →
      updateCollectionStory db du =
        (db, Except.error
          (JsError.typeError "Cannot read properties of null (reading id)"))) ∧
    (getCollectionStory db eid = none →
      deleteCollectionStory db eid =
        (db, Except.error
          (JsError.typeError "Cannot read properties of null (reading id)"))) := by
  refine ⟨fun h => ?_, fun h => ?_, fun h => ?_, fun h => ?_⟩
  · simp [updateCollection, h]
  · simp [createCollectionStory, h]
  · simp [updateCollectionStory, h]
  · simp [deleteCollectionStory, h]

/-- Witness for lookup_not_found_behavior: all four operations run
against the sample store with an unknown external id. -/
theorem lookup_not_found_behavior_witness :
    (updateCollection sampleDB missingUpdateCollectionInput 42 =
      (sampleDB,
        Except.error (JsError.thrown "A collection by that ID could not be found"))) ∧
    (deleteCollectionStory sampleDB "missing" =
      (sampleDB,
        Except.error
          (JsError.typeError "Cannot read properties of null (reading id)"))) :=
  ⟨(lookup_not_found_behavior sampleDB missingUpdateCollectionInput 42
      { collectionExternalId := "missing", url := "", title := "", excerpt := ""
        imageUrl := "", publisher := "", sortOrder := 0, authors := [] }
      { externalId := "missing", url := "", title := "", excerpt := ""
        imageUrl := "", publisher := "", sortOrder := 0, authors := [] }
      "missing").1 (by decide),
    (lookup_not_found_behavior sampleDB missingUpdateCollectionInput 42
      { collectionExternalId := "missing", url := "", title := "", excerpt := ""
        imageUrl := "", publisher := "", sortOrder := 0, authors := [] }
      { externalId := "missing", url := "", title := "", excerpt := ""
        imageUrl := "", publisher := "", sortOrder := 0, authors := [] }
      "missing").2.2.2 (by decide)⟩

/-- find? after an update-by-external-id map: the updated row becomes the
unique row the lookup returns, provided its externalId is the looked-up
one. -/
theorem find?_map_update_collection (l : List Collection) (eid : String)
    (u : Collection) (hu : u.externalId = eid) :
    (l.map (fun c => if c.externalId == eid then u else c)).find?
        (fun c => c.externalId == eid) =
      (l.find? (fun c => c.externalId == eid)).map (fun _ => u) := by
  induction l with
  | nil => rfl
  | cons a t ih =>
    by_cases hca : a.externalId = eid
    · simp only [List.map_cons]
      rw [if_pos (by simp [hca])]
      rw [List.find?_cons_of_pos _ (by simp [hu]), List.find?_cons_of_pos _ (by simp [hca])]
      rfl
    · simp only [List.map_cons]
      rw [if_neg (by simp [hca])]
      rw [List.find?_cons_of_neg _ (by simp [hca]), List.find?_cons_of_neg _ (by simp [hca])]
      exact ih

/-- Claim C1: updateCollection assigns publishedAt the current time on
the transition from unpublished to published, and while the collection
stays published an update leaves publishedAt unchanged; the stored row
equals the returned one in both cases. -/
theorem updateCollection_publishedAt_transition (db : DB)
    (data : UpdateCollectionInput) (now : Nat) (existing : Collection)
    (hex : getCollection db data.externalId = some existing) :
    (existing.status ≠ CollectionStatus.published →
      data.status = some CollectionStatus.published →
      ∀ c, (updateCollection db data now).2 = Except.ok c →
        c.publishedAt = some now ∧
        getCollection (updateCollection db data now).1 data.externalId = some c) ∧
    (existing.status = CollectionStatus.published →
      data.status = some CollectionStatus.published →
      ∀ c, (updateCollection db data now).2 = Except.ok c →
        c.publishedAt = existing.publishedAt ∧
        getCollection (updateCollection db data now).1 data.externalId = some c) := by
  have hfind : db.collections.find? (fun c => c.externalId == data.externalId) =
      some existing := hex
  have hexid : existing.externalId = data.externalId := by
    simpa using List.find?_some hfind
  constructor
  · intro h1 h2 c hok
    simp only [updateCollection, hex] at hok ⊢
    split at hok
    next hdup => simp at hok
    next hdup =>
      split at hok
      next hauth => simp at hok
      next hauth =>
        simp only [Except.ok.injEq] at hok
        subst hok
        refine ⟨by simp [optUpdate, h1, h2], ?_⟩
        rw [if_neg hdup, if_neg hauth]
        simp only [getCollection]
        refine Eq.trans
          (find?_map_update_collection db.collections data.externalId _ ?_) ?_
        · exact hexid
        · rw [hfind]
          rfl
  · intro h1 h2 c hok
    simp only [updateCollection, hex] at hok ⊢
    split at hok
    next hdup => simp at hok
    next hdup =>
      split at hok
      next hauth => simp at hok
      next hauth =>
        simp only [Except.ok.injEq] at hok
        subst hok
        refine ⟨by simp [optUpdate, h1], ?_⟩
        rw [if_neg hdup, if_neg hauth]
        simp only [getCollection]
        refine Eq.trans
          (find?_map_update_collection db.collections data.externalId _ ?_) ?_
        · exact hexid
        · rw [hfind]
          rfl

/-- An updateCollection input publishing the draft collection c1. -/
def publishUpdateInput : UpdateCollectionInput :=
  { externalId := "c1", slug := "let-us-go-bowling", title := "first"
    excerpt := none, imageUrl := none
    status := some CollectionStatus.published, authorExternalId := "a1" }

/-- An updateCollection input re-saving the already published c2. -/
def republishUpdateInput : UpdateCollectionInput :=
  { externalId := "c2", slug := "phone-is-ringing", title := "retitled"
    excerpt := none, imageUrl := none
    status := some CollectionStatus.published, authorExternalId := "a1" }

/-- Witness for updateCollection_publishedAt_transition: publishing the
draft collection stamps publishedAt with the current time; re-saving the
published collection keeps its old publishedAt. -/
theorem updateCollection_publishedAt_transition_witness :
    ((updateCollection sampleDB publishUpdateInput 42).2 =
      Except.ok
        { id := 3, externalId := "c1", slug := "let-us-go-bowling", title := "first"
          excerpt := none, imageUrl := none, status := CollectionStatus.published
          publishedAt := some 42, authors := ["a1"] }) ∧
    ({ id := 3, externalId := "c1", slug := "let-us-go-bowling", title := "first"
       excerpt := none, imageUrl := none, status := CollectionStatus.published
       publishedAt := some 42, authors := ["a1"] : Collection }.publishedAt = some 42) ∧
    ((updateCollection sampleDB republishUpdateInput 42).2 =
      Except.ok
        { id := 4, externalId := "c2", slug := "phone-is-ringing", title := "retitled"
          excerpt := none, imageUrl := none, status := CollectionStatus.published
          publishedAt := some 11, authors := ["a1"] }) ∧
    ({ id := 4, externalId := "c2", slug := "phone-is-ringing", title := "retitled"
       excerpt := none, imageUrl := none, status := CollectionStatus.published
       publishedAt := some 11, authors := ["a1"] : Collection }.publishedAt =
      sampleCollection2.publishedAt) :=
  ⟨by decide,
    ((updateCollection_publishedAt_transition sampleDB publishUpdateInput 42
      sampleCollection1 (by decide)).1 (by decide) rfl _ (by decide)).1,
    by decide,
    ((updateCollection_publishedAt_transition sampleDB republishUpdateInput 42
      sampleCollection2 (by decide)).2 rfl rfl _ (by decide)).1⟩

/-- Claim C2: collection slugs are unique — createCollection rejects a
slug already in use with its exact message, updateCollection rejects a
slug used by a different collection with the same message, and an update
keeping the record's own slug is not subject to the uniqueness check and
succeeds. -/
theorem collection_slug_uniqueness (db : DB) (dc : CreateCollectionInput)
    (du : UpdateCollectionInput) (now : Nat) :
    ((∃ c ∈ db.collections, c.slug = dc.slug) →
      createCollection db dc =
        (db, Except.error (JsError.thrown
          ("A collection with the slug " ++ dc.slug ++ " already exists")))) ∧
    (∀ existing, getCollection db du.externalId = some existing →
      existing.slug ≠ du.slug →
      (∃ c ∈ db.collections, c.slug = du.slug ∧ c.externalId ≠ existing.externalId) →
      updateCollection db du now =
        (db, Except.error (JsError.thrown
          ("A collection with the slug " ++ du.slug ++ " already exists")))) ∧
    (∀ existing, getCollection db du.externalId = some existing →
      existing.slug = du.slug →
      (∃ a ∈ db.collectionAuthors, a.externalId = du.authorExternalId) →
      ∃ c, (updateCollection db du now).2 = Except.ok c) := by
  refine ⟨fun hdup => ?_, fun existing hex hne hdup => ?_, fun existing hex heq hauth => ?_⟩
  · have hcount : db.collections.countP (fun c => c.slug == dc.slug) ≠ 0 := by
      rcases hdup with ⟨c, hc, hcs⟩
      have : 0 < db.collections.countP (fun c => c.slug == dc.slug) :=
        List.countP_pos_iff.mpr ⟨c, hc, by simp [hcs]⟩
      omega
    simp [createCollection, hcount]
  · have hcount : db.collections.countP
        (fun c => c.slug == du.slug && c.externalId != existing.externalId) > 0 := by
      rcases hdup with ⟨c, hc, hcs, hcid⟩
      exact List.countP_pos_iff.mpr ⟨c, hc, by simp [hcs, hcid]⟩
    simp only [updateCollection, hex]
    split
    · rfl
    next hcond => exact absurd ⟨hne, hcount⟩ hcond
  · simp only [updateCollection, hex]
    split
    next hcond => exact absurd hcond (by simp [heq])
    next hcond =>
      split
      next hnone =>
        rcases hauth with ⟨a, ha, haid⟩
        have hs : (db.collectionAuthors.find?
            (fun a => a.externalId == du.authorExternalId)).isSome :=
          List.find?_isSome.mpr ⟨a, ha, by simp [haid]⟩
        rw [Option.isNone_iff_eq_none] at hnone
        rw [hnone] at hs
        cases hs
      next hnone => exact ⟨_, rfl⟩

/-- An updateCollection input moving c2 onto the slug of c1. -/
def dupUpdateCollectionInput : UpdateCollectionInput :=
  { externalId := "c2", slug := "let-us-go-bowling", title := "second"
    excerpt := none, imageUrl := none, status := none, authorExternalId := "a1" }

/-- Witness for collection_slug_uniqueness: a duplicate slug on create, a
duplicate slug on update, and an update keeping its own slug. -/
theorem collection_slug_uniqueness_witness :
    (createCollection sampleDB dupCreateCollectionInput =
      (sampleDB, Except.error (JsError.thrown
        "A collection with the slug let-us-go-bowling already exists"))) ∧
    (updateCollection sampleDB dupUpdateCollectionInput 42 =
      (sampleDB, Except.error (JsError.thrown
        "A collection with the slug let-us-go-bowling already exists"))) ∧
    (∃ c, (updateCollection sampleDB republishUpdateInput 42).2 = Except.ok c) :=
  ⟨(collection_slug_uniqueness sampleDB dupCreateCollectionInput
      dupUpdateCollectionInput 42).1 (by decide),
    (collection_slug_uniqueness sampleDB dupCreateCollectionInput
      dupUpdateCollectionInput 42).2.1 sampleCollection2 (by decide) (by decide)
      (by decide),
    (collection_slug_uniqueness sampleDB dupCreateCollectionInput
      republishUpdateInput 42).2.2 sampleCollection2 (by decide) rfl (by decide)⟩

/-- Updating the author rows matching one externalId to a record with a
slug no other author holds preserves distinctness of the slugs. -/
theorem nodup_slug_map_update (eid s : String) (u : CollectionAuthor)
    (huslug : u.slug = s) :
    ∀ l : List CollectionAuthor,
      (l.map (fun a => a.slug)).Nodup →
      (l.map (fun a => a.externalId)).Nodup →
      (∀ a ∈ l, a.slug = s → a.externalId = eid) →
      ((l.map (fun a => if a.externalId == eid then u else a)).map
        (fun a => a.slug)).Nodup := by
  intro l
  induction l with
  | nil =>
    intro _ _ _
    simp
  | cons a t ih =>
    intro hslug hext hok
    simp only [List.map_cons, List.nodup_cons] at hslug hext ⊢
    obtain ⟨haslug, htslug⟩ := hslug
    obtain ⟨haext, htext⟩ := hext
    refine ⟨?_, ih htslug htext (fun b hb => hok b (List.mem_cons_of_mem a hb))⟩
    intro hmem
    rw [List.mem_map] at hmem
    obtain ⟨b0, hb0mem, hb0eq⟩ := hmem
    rw [List.mem_map] at hb0mem
    obtain ⟨b, hbmem, rfl⟩ := hb0mem
    by_cases hae : a.externalId = eid
    · by_cases hbe : b.externalId = eid
      · exact haext (List.mem_map.mpr ⟨b, hbmem, by rw [hbe, hae]⟩)
      · rw [if_neg (by simp [hbe]), if_pos (by simp [hae])] at hb0eq
        exact hbe (hok b (List.mem_cons_of_mem a hbmem) (by rw [hb0eq, huslug]))
    · by_cases hbe : b.externalId = eid
      · rw [if_pos (by simp [hbe]), if_neg (by simp [hae])] at hb0eq
        have haslug_s : a.slug = s := by rw [← hb0eq, huslug]
        exact hae (hok a (List.mem_cons_self a t) haslug_s)
      · rw [if_neg (by simp [hbe]), if_neg (by simp [hae])] at hb0eq
        exact haslug (List.mem_map.mpr ⟨b, hbmem, hb0eq⟩)

/-- Claim C4: author slugs stay unique — createAuthor rejects an existing
slug with its exact message, updateAuthor rejects a slug held by an
author with a different externalId with the same message, and both
operations preserve distinctness of the stored author slugs. -/
theorem author_slug_uniqueness (db : DB) (dc : CreateCollectionAuthorInput)
    (du : UpdateCollectionAuthorInput) :
    ((∃ a ∈ db.collectionAuthors, a.slug = resolvedAuthorSlug dc) →
      createAuthor db dc =
        (db, Except.error (JsError.thrown
          ("An author with the slug \"" ++ resolvedAuthorSlug dc ++ "\" already exists")))) ∧
    (∀ eid, du.externalId = some eid → eid ≠ "" →
      (∃ a ∈ db.collectionAuthors, a.slug = du.slug ∧ a.externalId ≠ eid) →
      updateAuthor db du =
        (db, Except.error (JsError.thrown
          ("An author with the slug \"" ++ du.slug ++ "\" already exists")))) ∧
    ((db.collectionAuthors.map (fun a => a.slug)).Nodup →
      (∀ a, (createAuthor db dc).2 = Except.ok a →
        ((createAuthor db dc).1.collectionAuthors.map (fun a => a.slug)).Nodup) ∧
      ((db.collectionAuthors.map (fun a => a.externalId)).Nodup →
        ∀ a, (updateAuthor db du).2 = Except.ok a →
          ((updateAuthor db du).1.collectionAuthors.map (fun a => a.slug)).Nodup)) := by
  refine ⟨fun hdup => ?_, fun eid heid hene hdup => ?_, fun hnd => ⟨?_, fun hndext => ?_⟩⟩
  · have hcount : db.collectionAuthors.countP
        (fun a => a.slug == resolvedAuthorSlug dc) ≠ 0 := by
      rcases hdup with ⟨a, ha, has⟩
      have : 0 < db.collectionAuthors.countP (fun a => a.slug == resolvedAuthorSlug dc) :=
        List.countP_pos_iff.mpr ⟨a, ha, by simp [has]⟩
      omega
    simp [createAuthor, hcount]
  · have hcount : db.collectionAuthors.countP
        (fun a => a.slug == du.slug && a.externalId != eid) ≠ 0 := by
      rcases hdup with ⟨a, ha, has, hae⟩
      have : 0 < db.collectionAuthors.countP
          (fun a => a.slug == du.slug && a.externalId != eid) :=
        List.countP_pos_iff.mpr ⟨a, ha, by simp [has, hae]⟩
      omega
    simp [updateAuthor, heid, hene, hcount]
  · intro a h
    suffices hs : ∀ p, createAuthor db dc = p → p.2 = Except.ok a →
        (p.1.collectionAuthors.map (fun x => x.slug)).Nodup from hs _ rfl h
    intro p hp hok
    simp only [createAuthor] at hp
    split at hp
    next hcnt =>
      subst hp
      simp at hok
    next hcnt =>
      subst hp
      have hc0 : db.collectionAuthors.countP
          (fun x => x.slug == resolvedAuthorSlug dc) = 0 := by omega
      have hnotin : ∀ x ∈ db.collectionAuthors, ¬x.slug = resolvedAuthorSlug dc := by
        intro x hx
        have := List.countP_eq_zero.mp hc0 x hx
        simpa using this
      simp only [List.map_append, List.map_cons, List.map_nil]
      rw [List.nodup_append]
      refine ⟨hnd, List.nodup_singleton _, ?_⟩
      intro x hx hxmem
      rw [List.mem_map] at hx
      obtain ⟨b, hb, rfl⟩ := hx
      simp only [List.mem_singleton] at hxmem
      exact hnotin b hb hxmem
  · intro a h
    suffices hs : ∀ p, updateAuthor db du = p → p.2 = Except.ok a →
        (p.1.collectionAuthors.map (fun x => x.slug)).Nodup from hs _ rfl h
    intro p hp hok
    simp only [updateAuthor] at hp
    split at hp
    next heid =>
      subst hp
      simp at hok
    next eid heid =>
      split at hp
      next hene =>
        subst hp
        simp at hok
      next hene =>
        split at hp
        next hcnt =>
          subst hp
          simp at hok
        next hcnt =>
          split at hp
          next hfind =>
            subst hp
            simp at hok
          next a0 hfind =>
            subst hp
            have hc0 : db.collectionAuthors.countP
                (fun x => x.slug == du.slug && x.externalId != eid) = 0 := by omega
            have hok2 : ∀ x ∈ db.collectionAuthors, x.slug = du.slug →
                x.externalId = eid := by
              intro x hx hxs
              have := List.countP_eq_zero.mp hc0 x hx
              simp [hxs] at this
              exact this
            exact nodup_slug_map_update eid du.slug _ rfl
              db.collectionAuthors hnd hndext hok2

/-- Witness for author_slug_uniqueness: a duplicate slug on create, a
duplicate slug on update, and preserved slug distinctness on a concrete
successful create and update against the sample store. -/
theorem author_slug_uniqueness_witness :
    (createAuthor sampleDB dupCreateAuthorInput =
      (sampleDB, Except.error (JsError.thrown
        "An author with the slug \"the-dude\" already exists"))) ∧
    (updateAuthor sampleDB dupUpdateAuthorInput =
      (sampleDB, Except.error (JsError.thrown
        "An author with the slug \"the-dude\" already exists"))) ∧
    ((createAuthor sampleDB
        { name := "donny", slug := none, bio := none, imageUrl := none
          : CreateCollectionAuthorInput }).1.collectionAuthors.map
      (fun a => a.slug)).Nodup ∧
    ((updateAuthor sampleDB
        { externalId := some "a2", name := "walter", slug := "walter-man"
          bio := none, imageUrl := none
          : UpdateCollectionAuthorInput }).1.collectionAuthors.map
      (fun a => a.slug)).Nodup :=
  ⟨(author_slug_uniqueness sampleDB dupCreateAuthorInput dupUpdateAuthorInput).1
      (by decide),
    (author_slug_uniqueness sampleDB dupCreateAuthorInput dupUpdateAuthorInput).2.1
      "a2" rfl (by decide) (by decide),
    ((author_slug_uniqueness sampleDB
        { name := "donny", slug := none, bio := none, imageUrl := none }
        dupUpdateAuthorInput).2.2 (by decide)).1
      { id := 8, externalId := "author-8", name := "donny", slug := "donny"
        bio := none, imageUrl := none } (by decide),
    (((author_slug_uniqueness sampleDB dupCreateAuthorInput
        { externalId := some "a2", name := "walter", slug := "walter-man"
          bio := none, imageUrl := none }).2.2 (by decide)).2 (by decide))
      { id := 2, externalId := "a2", name := "walter", slug := "walter-man"
        bio := none, imageUrl := none } (by decide)⟩

end CollectionApi
